import Mathlib

/-!
Shallow embedding of the core decision / position-lifecycle logic of
`trading_system_24x7_final.py` (an options-chain trading system), together
with theorems settling the specification claims about it.

Conventions of the embedding:
* Python floats are modelled as `ℚ`; the transcendental parts of the
  volatility computation (`np.std` of log-returns, annualisation factor)
  are abstracted into an oracle function argument, since no claim depends
  on their value, only on the clamping / defaulting around them.
* Python `round` (banker's rounding, round-half-to-even) is `pyRound`.
* `try/except` blocks are modelled by explicit branches: a guard on the
  concrete zero-divisor where the source can raise, or a boolean
  `internal_error` input representing "some statement in the body raised".
* Option-chain snapshots (pandas rows) are records `OptionRow`; feature
  dictionaries are association lists `List (String × ℚ)` preserving
  insertion order, as Python dicts do.
* The sklearn / torch estimators are opaque to the claims; their raw
  outputs are supplied as inputs (`ModelRaw`), with `none` modelling a
  raised exception caught by the per-model `try/except` (which substitutes
  the documented neutral default).  Which estimators got `.fit` is tracked
  by boolean flags (`ModelSetFlags`).
-/

set_option maxRecDepth 10000

namespace TradingSystem

/-- Python `round`: round half to even (banker's rounding), as used by
`round(x)` on the exact rational value. -/
def pyRound (q : ℚ) : ℤ :=
  let f : ℤ := ⌊q⌋
  let frac : ℚ := q - f
  if frac < 1/2 then f
  else if 1/2 < frac then f + 1
  else if f % 2 = 0 then f else f + 1

/-- `np.clip(x, lo, hi)`. -/
def np_clip (x lo hi : ℚ) : ℚ := min (max x lo) hi

/-- Occurrence of `needle` as a contiguous sub-sequence of `hay`. -/
def charsContain : List Char → List Char → Bool
  | [], needle => needle.isEmpty
  | c :: t, needle => needle.isPrefixOf (c :: t) || charsContain t needle

/-- Python `needle in hay` substring test. -/
def strContains (hay needle : String) : Bool :=
  charsContain hay.toList needle.toList

/-- One row of the option-chain snapshot table (the columns the core reads). -/
structure OptionRow where
  strike : ℚ
  call_oi : ℚ
  put_oi : ℚ
  call_volume : ℚ
  put_volume : ℚ
  call_ltp : ℚ
  put_ltp : ℚ
  call_change_oi : ℚ
  put_change_oi : ℚ
deriving Repr, DecidableEq

/-- ML prediction record as consumed by `PaperTrade.enter`
(`ml_predictions` dict). -/
structure MLPredictions where
  position_size : ℚ
  stop_loss_pct : ℚ
  trailing_stop_pct : ℚ
  confidence : ℚ
deriving Repr, DecidableEq

/-- The `PaperTrade` object state (fields relevant to the lifecycle logic).
`ml_trailing_stop_pct = none` models the attribute being absent
(`hasattr` false), as after `__init__`/`reset`. -/
structure PaperTrade where
  position : Option String
  entry_price : ℚ
  entry_time : Option ℚ
  entry_strike : ℚ
  direction : ℤ
  active : Bool
  is_short : Bool
  pnl : ℚ
  max_profit : ℚ
  position_size : ℚ
  regime : String
  stop_loss : ℚ
  profit_target : ℚ
  ml_trailing_stop_pct : Option ℚ
deriving Repr, DecidableEq

/-- `PaperTrade.__init__` (the state part). -/
def PaperTrade.init : PaperTrade where
  position := none
  entry_price := 0
  entry_time := none
  entry_strike := 0
  direction := 0
  active := false
  is_short := false
  pnl := 0
  max_profit := 0
  position_size := 0
  regime := "unknown"
  stop_loss := 0
  profit_target := 0
  ml_trailing_stop_pct := none

/-- `PaperTrade.calculate_exit_levels`: traditional (non-ML) stop/target. -/
def PaperTrade.calculate_exit_levels (s : PaperTrade) (entry_price : ℚ)
    (regime : String) : PaperTrade :=
  let stop := entry_price * (11/10)
  let target :=
    if strContains regime "trending" then entry_price * (1/2)
    else if strContains regime "sideways" then entry_price * (7/10)
    else entry_price * (3/5)
  { s with stop_loss := stop, profit_target := target }

/-- `PaperTrade.enter(direction, ltp, strike, position_size, regime,
ml_predictions)`.  Returns the Python return value and the mutated object.
`now` stands for `datetime.now()`.  Note: the source has NO guard on
`self.active`; an already-open position is silently overwritten. -/
def PaperTrade.enter (s : PaperTrade) (direction : ℤ) (ltp : ℚ) (strike : ℚ)
    (position_size : ℚ) (regime : String) (ml_predictions : Option MLPredictions)
    (now : ℚ) : Bool × PaperTrade :=
  if ¬(direction = 1 ∨ direction = -1) then (false, s)
  else if ¬(0 < ltp) then (false, s)
  else
    let s1 := { s with
      position := some (if direction = 1 then "SHORT_PUT" else "SHORT_CALL")
      entry_price := ltp
      entry_strike := strike
      entry_time := some now
      direction := direction
      active := true
      regime := regime
      is_short := true }
    match ml_predictions with
    | some mp =>
      let ml_position_size_lots : ℤ := max 1 (pyRound (mp.position_size * 10))
      let size := max position_size (ml_position_size_lots : ℚ)
      let slp := max (1/20) (min (1/5) mp.stop_loss_pct)
      let tsp := max (3/10) (min (4/5) mp.trailing_stop_pct)
      let conf := max 0 (min 1 mp.confidence)
      let target :=
        if 4/5 < conf then ltp * (2/5)
        else if 7/10 < conf then ltp * (3/5)
        else ltp * (7/10)
      (true, { s1 with
        position_size := size
        stop_loss := ltp * (1 + slp)
        ml_trailing_stop_pct := some tsp
        profit_target := target })
    | none =>
      let s2 := { s1 with position_size := max 1 position_size,
                          ml_trailing_stop_pct := some (1/2) }
      (true, s2.calculate_exit_levels ltp regime)

/-- Regime-derived trailing-stop retracement used by `check_exit` when no
usable ML percentage is present. -/
def regimeTrailingPct (regime : String) : ℚ :=
  if strContains regime.toLower "trending" then 2/5
  else if strContains regime.toLower "sideways" then 3/5
  else 1/2

/-- The time-exit test `self.entry_time and (now - entry_time) > 7200`. -/
def timeExceeded (entry_time : Option ℚ) (now : ℚ) : Bool :=
  match entry_time with
  | some t => decide (7200 < now - t)
  | none => false

/-- The current price of the entered leg: put price for direction 1
(SHORT_PUT), call price otherwise (SHORT_CALL). -/
def legPrice (s : PaperTrade) (row : OptionRow) : ℚ :=
  if s.direction = 1 then row.put_ltp else row.call_ltp

/-- The `exit_reason` computation of `PaperTrade.check_exit`: the five
exit conditions in source order, first match wins (`None` when no
condition fires).  `maxp` is `self.max_profit` as already updated by the
max-profit-tracking block that precedes the checks. -/
def exitReason (s : PaperTrade) (row : OptionRow) (signal : ℤ)
    (regime : String) (now : ℚ) : Option String :=
  let current_ltp := legPrice s row
  let profit := s.entry_price - current_ltp
  let maxp := max s.max_profit profit
  if s.stop_loss ≤ current_ltp then some "Stop Loss"
  else if signal = 0 ∨ signal ≠ s.direction then some "Signal Change"
  else if current_ltp ≤ s.profit_target then some "Profit Target"
  else if timeExceeded s.entry_time now then some "Time Exit"
  else if 8 < maxp ∧ 2 < profit then
    let trailing_pct :=
      match s.ml_trailing_stop_pct with
      | some v => if v ≠ 0 then v else regimeTrailingPct regime
      | none => regimeTrailingPct regime
    if profit < maxp * trailing_pct then some "Trailing Stop" else none
  else none

/-- `PaperTrade.check_exit(current_data, signal, regime)`.
Returns `(outcome, pnl, exit_reason)` and resets the position when an exit
condition fires, else `none` with the (max-profit-updated) state.
`now` stands for `datetime.now()` (seconds). -/
def PaperTrade.check_exit (s : PaperTrade) (current_data : List OptionRow)
    (signal : ℤ) (regime : String) (now : ℚ) :
    Option (ℤ × ℚ × String) × PaperTrade :=
  if ¬ s.active then (none, s)
  else
    match current_data.find? (fun r => r.strike = s.entry_strike) with
    | none => (none, s)
    | some row =>
      let profit := s.entry_price - legPrice s row
      let s1 := { s with max_profit := max s.max_profit profit }
      match exitReason s row signal regime now with
      | some reason =>
        let outcome : ℤ := if 0 < profit then 1 else 0
        (some (outcome, profit, reason), PaperTrade.init)
      | none => (none, s1)

/-- The five exit conditions in the fixed specification order; the first
true condition names the exit reason. -/
def exit_reason_priority (c1 c2 c3 c4 c5 : Bool) : Option String :=
  if c1 then some "Stop Loss"
  else if c2 then some "Signal Change"
  else if c3 then some "Profit Target"
  else if c4 then some "Time Exit"
  else if c5 then some "Trailing Stop"
  else none

/-! ### AdvancedRiskManager -/

/-- `get_historical_win_rate`: default 0.5 below 5 trades. -/
def get_historical_win_rate (trade_history : List ℚ) : ℚ :=
  if trade_history.length < 5 then 1/2
  else ((trade_history.filter (fun p => 0 < p)).length : ℚ) / trade_history.length

/-- `get_average_win`: mean of positive PnLs, `0` when there are none. -/
def get_average_win (trade_history : List ℚ) : ℚ :=
  let wins := trade_history.filter (fun p => 0 < p)
  if wins.isEmpty then 0 else wins.sum / wins.length

/-- `get_average_loss`: mean of `|pnl|` over negative PnLs, `0` when none. -/
def get_average_loss (trade_history : List ℚ) : ℚ :=
  let losses := (trade_history.filter (fun p => p < 0)).map (fun p => |p|)
  if losses.isEmpty then 0 else losses.sum / losses.length

/-- `Config.LOT_SIZE` default (Nifty). -/
def LOT_SIZE : ℚ := 75

/-- `AdvancedRiskManager.max_risk_per_trade`. -/
def max_risk_per_trade : ℚ := 1/50

/-- `AdvancedRiskManager.calculate_position_size(account_value, volatility,
confidence, signal_strength)`, returning lots.  The one statement of the
body that can raise on pathological input is `1 / (1 + volatility * 2)`
(`ZeroDivisionError` when `volatility = -1/2`); the surrounding
`try/except` turns any such error into the fail-safe `1`.  (The guarded
Kelly quotient cannot raise: `avg_win = 0` yields a numpy `-inf`, which
`np.clip` sends to `0`, matching rational division-by-zero = 0 followed by
the same clip.) -/
def calculate_position_size (trade_history : List ℚ)
    (account_value volatility confidence signal_strength : ℚ) : ℤ :=
  if 1 + volatility * 2 = 0 then 1
  else
    let win_rate := get_historical_win_rate trade_history
    let avg_win := get_average_win trade_history
    let avg_loss := get_average_loss trade_history
    let base_size :=
      if avg_loss = 0 ∨ trade_history.length < 10 then account_value * (1/100)
      else
        let kelly := (win_rate * avg_win - (1 - win_rate) * avg_loss) / avg_win
        account_value * np_clip kelly 0 (1/4)
    let volatility_adjustment := 1 / (1 + volatility * 2)
    let confidence_adjustment := min (confidence / 3) 1
    let strength_adjustment := min (signal_strength / 10) 1
    let psm := base_size * volatility_adjustment * confidence_adjustment *
      strength_adjustment
    let psm := min psm (account_value * max_risk_per_trade)
    let psm := max psm (account_value * (1/200))
    let total_contracts := psm / 100
    let lots : ℤ := max 1 (pyRound (total_contracts / LOT_SIZE))
    let max_lots : ℤ := max 1 ⌊account_value / 50000⌋
    min lots max_lots

/-! ### MarketRegimeDetector -/

/-- The record `detect_regime` returns. -/
structure RegimeInfo where
  regime : String
  volatility : ℚ
  trend_strength : ℚ
  momentum : ℚ
deriving Repr, DecidableEq

/-- The safe default returned from the `except` clause of `detect_regime`. -/
def regimeSafeDefault : RegimeInfo where
  regime := "unknown"
  volatility := 1/5
  trend_strength := 0
  momentum := 0

/-- `calculate_realized_volatility_from_history(window)` over the rolling
price history.  `stdAnnualized` abstracts
`np.std(np.diff(np.log(prices))) * sqrt(252 * 375)` (irrational in
general); every claim about this function concerns only the defaulting and
clamping around that value. -/
def calculate_realized_volatility_from_history (stdAnnualized : List ℚ → ℚ)
    (price_history : List ℚ) (window : ℕ) : ℚ :=
  if price_history.length < 2 then 1/5
  else
    let recent := price_history.drop
      (price_history.length - min window price_history.length)
    if recent.length < 2 then 1/5
    else if recent.length - 1 = 0 then 1/5
    else max (1/20) (min 2 (stdAnnualized recent))

/-- The 3×2 regime-label table of `detect_regime`. -/
def regimeLabel (volatility trend_strength : ℚ) : String :=
  if volatility < 3/20 then
    if 3/5 < |trend_strength| then "trending_low_vol" else "sideways_low_vol"
  else if volatility < 1/4 then
    if 3/5 < |trend_strength| then "trending_medium_vol" else "sideways_medium_vol"
  else
    if 3/5 < |trend_strength| then "trending_high_vol" else "sideways_high_vol"

/-- `MarketRegimeDetector.detect_regime(data, underlying_value)`.
`trend_strength` and `momentum` are computed by helpers that carry their
own internal `try/except` and are total, so they enter as oracle values;
`internal_error = true` models any statement of the body raising, which the
outer `except` turns into `regimeSafeDefault` (state mutations made before
the raise may persist; only the returned record is modelled on that path). -/
def detect_regime (stdAnnualized : List ℚ → ℚ)
    (trend_strength momentum : ℚ) (price_history : List ℚ)
    (underlying_value : Option ℚ) (internal_error : Bool) :
    RegimeInfo × List ℚ :=
  if internal_error then (regimeSafeDefault, price_history)
  else
    let hist :=
      match underlying_value with
      | some p =>
        let h := price_history ++ [p]
        if 100 < h.length then h.drop (h.length - 100) else h
      | none => price_history
    let volatility := calculate_realized_volatility_from_history stdAnnualized hist 20
    ({ regime := regimeLabel volatility trend_strength
       volatility := volatility
       trend_strength := trend_strength
       momentum := momentum }, hist)

/-! ### Feature extraction (`AdvancedMLDecisionEngine.extract_features` and
`validate_and_clean_features`) -/

/-- `features.get(name, default)` over an ordered feature dictionary. -/
def lookupD (features : List (String × ℚ)) (name : String) (default : ℚ) : ℚ :=
  match features.find? (fun p => p.1 = name) with
  | some p => p.2
  | none => default

/-- The `feature_bounds` table of `validate_and_clean_features`. -/
def feature_bounds : List (String × ℚ × ℚ) :=
  [("volatility", 1/20, 2), ("pcr_oi", 1/10, 10), ("pcr_volume", 1/10, 10),
   ("time_of_day", 0, 24), ("underlying_price", 10000, 30000),
   ("atm_call_ltp", 1/10, 1000), ("atm_put_ltp", 1/10, 1000),
   ("call_oi_change_pct", -50, 50), ("put_oi_change_pct", -50, 50)]

/-- The `scaling_factors` table of `validate_and_clean_features`. -/
def scaling_factors : List (String × ℚ) :=
  [("atm_call_oi", 100000), ("atm_put_oi", 100000),
   ("total_call_oi", 1000000), ("total_put_oi", 1000000),
   ("atm_call_volume", 10000), ("atm_put_volume", 10000),
   ("total_call_volume", 100000), ("total_put_volume", 100000)]

/-- `validate_and_clean_features`: numeric sanitation (trivial over `ℚ`,
where no NaN/Inf exist), bounds-clamping of the critical features, then
down-scaling of the high-magnitude features. -/
def validate_and_clean_features (features : List (String × ℚ)) :
    List (String × ℚ) :=
  features.map (fun p =>
    let v := p.2
    let v := match feature_bounds.find? (fun b => b.1 = p.1) with
      | some b => max b.2.1 (min b.2.2 v)
      | none => v
    let v := match scaling_factors.find? (fun b => b.1 = p.1) with
      | some b => v / b.2
      | none => v
    (p.1, v))

/-- The `_initialize_feature_names` list set in the engine constructor. -/
def initial_feature_names : List String :=
  ["underlying_price", "atm_strike", "price_strike_diff", "price_strike_ratio",
   "atm_call_oi", "atm_put_oi", "atm_call_volume", "atm_put_volume",
   "atm_call_ltp", "atm_put_ltp",
   "pcr_oi", "pcr_volume", "call_put_ltp_ratio",
   "total_call_oi", "total_put_oi", "total_call_volume", "total_put_volume",
   "hour", "minute", "time_of_day", "is_opening", "is_closing", "is_mid_session",
   "call_oi_change", "put_oi_change", "call_volume_change", "put_volume_change",
   "call_ltp_change", "put_ltp_change", "call_oi_change_pct", "put_oi_change_pct",
   "call_volume_change_pct", "put_volume_change_pct", "call_ltp_change_pct",
   "put_ltp_change_pct"]

/-- The 12 change / percent-change features versus the second-most-recent
historical minute (the inner loop of the historical-comparison block). -/
def changeFeatures (atm_row prev_row : OptionRow) : List (String × ℚ) :=
  let one (name : String) (cur prev : ℚ) : List (String × ℚ) :=
    [(name ++ "_change", cur - prev),
     (name ++ "_change_pct", (cur - prev) / max prev 1 * 100)]
  one "call_oi" atm_row.call_oi prev_row.call_oi ++
  one "put_oi" atm_row.put_oi prev_row.put_oi ++
  one "call_volume" atm_row.call_volume prev_row.call_volume ++
  one "put_volume" atm_row.put_volume prev_row.put_volume ++
  one "call_ltp" atm_row.call_ltp prev_row.call_ltp ++
  one "put_ltp" atm_row.put_ltp prev_row.put_ltp

/-- `AdvancedMLDecisionEngine.extract_features(current_data,
historical_data, underlying_value, atm_strike)`.  `historical_data` is the
time-ordered list of prior snapshots (the dict sorted by its timestamp
keys); `hour`/`minute` stand for `datetime.now()`.  Returns `none` when no
row carries the ATM strike. -/
def extract_features (feature_names : List String)
    (current_data : List OptionRow) (historical_data : List (List OptionRow))
    (underlying_value atm_strike : ℚ) (hour minute : ℕ) :
    Option (List (String × ℚ)) :=
  match current_data.find? (fun r => r.strike = atm_strike) with
  | none => none
  | some atm_row =>
    let base : List (String × ℚ) :=
      [("underlying_price", underlying_value),
       ("atm_strike", atm_strike),
       ("price_strike_diff", underlying_value - atm_strike),
       ("price_strike_ratio",
         if 0 < atm_strike then underlying_value / atm_strike else 1),
       ("atm_call_oi", atm_row.call_oi),
       ("atm_put_oi", atm_row.put_oi),
       ("atm_call_volume", atm_row.call_volume),
       ("atm_put_volume", atm_row.put_volume),
       ("atm_call_ltp", atm_row.call_ltp),
       ("atm_put_ltp", atm_row.put_ltp),
       ("pcr_oi", atm_row.put_oi / max atm_row.call_oi 1),
       ("pcr_volume", atm_row.put_volume / max atm_row.call_volume 1),
       ("call_put_ltp_ratio", atm_row.call_ltp / max atm_row.put_ltp (1/100)),
       ("total_call_oi", (current_data.map (fun r => r.call_oi)).sum),
       ("total_put_oi", (current_data.map (fun r => r.put_oi)).sum),
       ("total_call_volume", (current_data.map (fun r => r.call_volume)).sum),
       ("total_put_volume", (current_data.map (fun r => r.put_volume)).sum),
       ("hour", (hour : ℚ)),
       ("minute", (minute : ℚ)),
       ("time_of_day", (hour : ℚ) + (minute : ℚ) / 60),
       ("is_opening", if hour = 9 ∧ minute < 30 then 1 else 0),
       ("is_closing", if 15 ≤ hour then 1 else 0),
       ("is_mid_session", if 10 ≤ hour ∧ hour ≤ 14 then 1 else 0)]
    let withChanges :=
      if 2 ≤ historical_data.length then
        let prev_data := historical_data.getD (historical_data.length - 2) []
        match prev_data.find? (fun r => r.strike = atm_strike) with
        | some prev_row => base ++ changeFeatures atm_row prev_row
        | none => base
      else base
    let keys := withChanges.map (fun p => p.1)
    let backfilled := withChanges ++
      (feature_names.filter (fun n => ¬ keys.contains n)).map (fun n => (n, (0 : ℚ)))
    some (validate_and_clean_features backfilled)

/-! ### The traditional (heuristic) signal (`traditional_analysis`) -/

/-- The signal/strength computation of `traditional_analysis` over the
thirteen feature values it reads (steps 1–7 of the source and the final
validation), as a function of those scalars. -/
def signal_core (call_volume put_volume pcr_oi call_oi put_oi call_put_ratio
    call_oi_change put_oi_change call_volume_change put_volume_change
    is_opening is_closing is_mid_session : ℚ) : ℤ × ℤ :=
  -- 1. Volume-based signals
  let sp : ℤ × ℤ :=
    if put_volume * (3/2) < call_volume ∧ 100 < call_volume then (1, 2)
    else if call_volume * (3/2) < put_volume ∧ 100 < put_volume then (-1, 2)
    else (0, 0)
  -- 2. OI-based signals
  let sp : ℤ × ℤ :=
    if put_oi * (6/5) < call_oi then
      if 0 ≤ sp.1 then (1, sp.2 + 1) else sp
    else if call_oi * (6/5) < put_oi then
      if sp.1 ≤ 0 then (-1, sp.2 + 1) else sp
    else sp
  -- 3. OI change analysis
  let sp : ℤ × ℤ :=
    if 0 < call_oi_change ∧ |put_oi_change| < call_oi_change then
      if 0 ≤ sp.1 then (sp.1, sp.2 + 1) else sp
    else if 0 < put_oi_change ∧ |call_oi_change| < put_oi_change then
      if sp.1 ≤ 0 then (sp.1, sp.2 + 1) else sp
    else sp
  -- 4. PCR analysis
  let sp : ℤ × ℤ :=
    if 3/2 < pcr_oi then (if sp.1 = 1 then (sp.1, sp.2 + 1) else sp)
    else if pcr_oi < 7/10 then (if sp.1 = -1 then (sp.1, sp.2 + 1) else sp)
    else sp
  -- 5. Volume trend analysis
  let sp : ℤ × ℤ :=
    if 100 < call_volume_change ∧ |put_volume_change| < call_volume_change then
      if 0 ≤ sp.1 then (sp.1, sp.2 + 1) else sp
    else if 100 < put_volume_change ∧ |call_volume_change| < put_volume_change then
      if sp.1 ≤ 0 then (sp.1, sp.2 + 1) else sp
    else sp
  -- 6. Time-based adjustments
  let sp : ℤ × ℤ :=
    if is_opening ≠ 0 then (sp.1, max 0 (sp.2 - 1))
    else if is_mid_session ≠ 0 then (if 0 < sp.2 then (sp.1, sp.2 + 1) else sp)
    else if is_closing ≠ 0 then (sp.1, max 0 (sp.2 - 1))
    else sp
  -- 7. Price-ratio analysis
  let sp : ℤ × ℤ :=
    if 13/10 < call_put_ratio ∧ sp.1 = 1 then (sp.1, sp.2 + 1)
    else if call_put_ratio < 7/10 ∧ sp.1 = -1 then (sp.1, sp.2 + 1)
    else sp
  -- Final validation
  let sp : ℤ × ℤ := if sp.2 < 2 then ((0 : ℤ), (0 : ℤ)) else sp
  let sp : ℤ × ℤ := (sp.1, min 10 sp.2)
  if sp.1 = -1 ∨ sp.1 = 0 ∨ sp.1 = 1 then sp else (0, 0)

/-- The signal/strength computation of `traditional_analysis` over an
extracted feature dictionary: read the thirteen signal-relevant features
(the remaining reads of the source do not influence the result) and run
the scalar computation. -/
def signal_generation (features : List (String × ℚ)) : ℤ × ℤ :=
  signal_core
    (lookupD features "atm_call_volume" 0)
    (lookupD features "atm_put_volume" 0)
    (lookupD features "pcr_oi" 0)
    (lookupD features "atm_call_oi" 0)
    (lookupD features "atm_put_oi" 0)
    (lookupD features "call_put_ltp_ratio" 0)
    (lookupD features "call_oi_change" 0)
    (lookupD features "put_oi_change" 0)
    (lookupD features "call_volume_change" 0)
    (lookupD features "put_volume_change" 0)
    (lookupD features "is_opening" 0)
    (lookupD features "is_closing" 0)
    (lookupD features "is_mid_session" 0)

/-- `traditional_analysis(current_data, underlying_value, atm_strike)`:
extract the same features the ML path uses, then run the heuristic;
`(0, 0)` when feature extraction fails. -/
def traditional_analysis (feature_names : List String)
    (current_data : List OptionRow) (historical_data : List (List OptionRow))
    (underlying_value atm_strike : ℚ) (hour minute : ℕ) : ℤ × ℤ :=
  match extract_features feature_names current_data historical_data
      underlying_value atm_strike hour minute with
  | none => (0, 0)
  | some features => signal_generation features

/-! ### AdvancedMLDecisionEngine: state, training-data ingestion, training,
prediction -/

/-- The label set attached to a training sample (the keys `train_models`
reads, with the defaults of its `labels.get(...)` calls already applied). -/
structure TrainLabels where
  regime : ℤ
  confidence : ℤ
  pattern : ℤ
  signal_direction : ℤ
  position_size : ℚ
  stop_loss_pct : ℚ
  trailing_stop_pct : ℚ
deriving Repr, DecidableEq

/-- One entry of `self.training_data`.  Samples are modelled with their
label dictionary present (the `generate_training_labels` fallback for
label-less samples is exercised by no claim). -/
structure TrainingSample where
  features : List (String × ℚ)
  labels : TrainLabels
deriving Repr, DecidableEq

/-- Which estimators of `self.models` have been `.fit` so far, plus the
sequence model. -/
structure ModelSetFlags where
  regime_classifier : Bool
  signal_confidence : Bool
  pattern_detector : Bool
  signal_direction : Bool
  position_sizer : Bool
  stop_loss_predictor : Bool
  trailing_stop_predictor : Bool
  meta_learner : Bool
  deep_model : Bool
deriving Repr, DecidableEq

/-- No estimator fit yet (fresh constructor state). -/
def ModelSetFlags.none : ModelSetFlags :=
  ⟨false, false, false, false, false, false, false, false, false⟩

/-- The engine state (the fields the claims touch).
`deep_model_rebuilds` counts reconstructions of the LSTM + optimizer;
`feature_buffer_len` is `len(self.feature_buffer)`;
`deep_train_success` abstracts the outcome of `_train_deep_model()`. -/
structure EngineState where
  feature_names : List String
  trained_feature_names : List String
  is_trained : Bool
  training_data : List TrainingSample
  max_training_samples : ℕ
  min_training_samples : ℕ
  sequence_length : ℕ
  feature_buffer_len : ℕ
  models : ModelSetFlags
  deep_model_rebuilds : ℕ
  deep_train_success : Bool
deriving Repr, DecidableEq

/-- The `feature_names` maintenance step of `update_training_data`
(initialise on first sample, else append unseen keys in encounter order),
paired with whether the branch that reinitialises the deep sequence model
and its Adam optimizer executed.  In the source that reinitialisation sits
in the `else` arm but OUTSIDE the `if added:` guard, so it runs on every
call with a non-empty name list. -/
def update_feature_names (feature_names : List String) (keys : List String) :
    List String × Bool :=
  if feature_names = [] then (keys, false)
  else
    (keys.foldl (fun acc n => if n ∈ acc then acc else acc ++ [n]) feature_names,
     true)

/-- `update_training_data(features, labels)`: append the sample (evicting
beyond `max_training_samples`), maintain `feature_names`, rebuild the deep
model, grow the feature buffer (capped at `sequence_length` by the deque). -/
def update_training_data (s : EngineState) (features : List (String × ℚ))
    (labels : TrainLabels) : EngineState :=
  let td := s.training_data ++ [{ features := features, labels := labels }]
  let td := if s.max_training_samples < td.length then
      td.drop (td.length - s.max_training_samples) else td
  let nr := update_feature_names s.feature_names (features.map (fun p => p.1))
  { s with
    training_data := td
    feature_names := nr.1
    feature_buffer_len := min (s.feature_buffer_len + 1) s.sequence_length
    deep_model_rebuilds := s.deep_model_rebuilds + (if nr.2 then 1 else 0) }

/-- `len(np.unique(y))`. -/
def countUnique (l : List ℤ) : ℕ := l.dedup.length

/-- `has_sufficient_diversity(y, min_classes=2)`. -/
def has_sufficient_diversity (l : List ℤ) : Bool := 2 ≤ countUnique l

/-- `train_models()`.  Returns the Python boolean and the mutated engine.
Mirrors the source's control flow: minimum-sample gate; design-matrix
shape gate; `trained_feature_names` freeze; the four-way class-diversity
check with its early `return False` when ANY check fails; per-classifier
fit guards; unconditional regressor fits; meta-learner and deep-model
gates; `is_trained` set when anything trained. -/
def train_models (s : EngineState) : Bool × EngineState :=
  if s.training_data.length < s.min_training_samples then (false, s)
  else
    let y_regime := s.training_data.map (fun smp => smp.labels.regime)
    let y_confidence := s.training_data.map (fun smp => smp.labels.confidence)
    let y_pattern := s.training_data.map (fun smp => smp.labels.pattern)
    let y_signal_direction := s.training_data.map (fun smp => smp.labels.signal_direction)
    -- `X.ndim != 2 or X.shape[0] == 0 or X.shape[1] == 0`
    if s.training_data.length = 0 ∨ s.feature_names.length = 0 then (false, s)
    else
      let s := if s.trained_feature_names = [] then
          { s with trained_feature_names := s.feature_names } else s
      let div_regime := has_sufficient_diversity y_regime
      let div_confidence := has_sufficient_diversity y_confidence
      let div_pattern := has_sufficient_diversity y_pattern
      let div_signal := has_sufficient_diversity y_signal_direction
      -- `if insufficient_diversity: ...; return False`
      if ¬ div_regime ∨ ¬ div_confidence ∨ ¬ div_pattern ∨ ¬ div_signal then
        (false, s)
      else
        let m := s.models
        let m := if div_regime then { m with regime_classifier := true } else m
        let m := if div_confidence then { m with signal_confidence := true } else m
        let m := if div_pattern then { m with pattern_detector := true } else m
        let m := if div_signal then { m with signal_direction := true } else m
        let m := { m with position_sizer := true, stop_loss_predictor := true,
                          trailing_stop_predictor := true }
        let m := if decide (50 ≤ s.training_data.length) && m.regime_classifier &&
            m.signal_confidence && has_sufficient_diversity y_regime then
            { m with meta_learner := true } else m
        let m := if decide (s.sequence_length ≤ s.feature_buffer_len) &&
            s.deep_train_success then { m with deep_model := true } else m
        -- `models_trained` always contains the three regressors here
        (true, { s with models := m, is_trained := true })

/-- Raw outputs of the underlying estimators inside `predict`, supplied as
inputs since the fitted models are opaque; `none` models a raised
exception, which the per-model `try/except` replaces with the documented
neutral default.  `meta` is `(meta_regime, max(meta_proba))`; `deep` is
the `(regime, confidence)` of the sequence model, `none` when the feature
buffer is short or the call failed. -/
structure ModelRaw where
  regime : Option ℤ
  confidence : Option ℚ
  pattern : Option ℤ
  signal_direction : Option ℤ
  position_size : Option ℚ
  stop_loss_pct : Option ℚ
  trailing_stop_pct : Option ℚ
  meta : Option (ℤ × ℚ)
  deep : Option (ℤ × ℚ)
deriving Repr, DecidableEq

/-- The fixed-shape record `predict` returns. -/
structure Prediction where
  regime : ℤ
  confidence : ℚ
  pattern : ℤ
  signal_direction : ℤ
  tradetron_signal : ℤ
  position_size : ℚ
  stop_loss_pct : ℚ
  trailing_stop_pct : ℚ
  deep_learning_used : Bool
deriving Repr, DecidableEq

/-- The regime averaging `int(round((r + deep_r + 1) / 2)) - 1` applied
when a deep prediction is available. -/
def averageRegime (r deep_r : ℤ) : ℤ := pyRound (((r : ℚ) + deep_r + 1) / 2) - 1

/-- `AdvancedMLDecisionEngine.predict(features)`. -/
def predict (s : EngineState) (raw : ModelRaw) : Option Prediction :=
  if ¬ s.is_trained ∨ s.feature_names = [] then none
  else
    let regime_pred := raw.regime.getD 0
    let confidence := raw.confidence.getD (1/2)
    let pattern := raw.pattern.getD 0
    let signal_direction := raw.signal_direction.getD 0
    let position_size := raw.position_size.getD (1/2)
    let stop_loss_pct := raw.stop_loss_pct.getD (1/10)
    let trailing_stop_pct := raw.trailing_stop_pct.getD (1/2)
    -- ensure reasonable bounds
    let position_size := max (1/10) (min 1 position_size)
    let stop_loss_pct := max (1/20) (min (1/5) stop_loss_pct)
    let trailing_stop_pct := max (3/10) (min (4/5) trailing_stop_pct)
    let deep_pred := raw.deep
    -- meta-learner with fallback to the base models, then deep averaging
    let fr_fc : ℤ × ℚ :=
      match raw.meta with
      | some (meta_regime, meta_conf) =>
        (match deep_pred with
         | some (dr, dc) => (averageRegime meta_regime dr, (meta_conf + dc) / 2)
         | none => (meta_regime, meta_conf))
      | none =>
        (match deep_pred with
         | some (dr, dc) => (averageRegime regime_pred dr, (confidence + dc) / 2)
         | none => (regime_pred, confidence))
    let tradetron_signal : ℤ :=
      if signal_direction = 1 then 1
      else if signal_direction = -1 then -1
      else 0
    let final_confidence :=
      if |signal_direction| = 1 then max fr_fc.2 (7/10) else fr_fc.2
    some { regime := fr_fc.1
           confidence := final_confidence
           pattern := pattern
           signal_direction := signal_direction
           tradetron_signal := tradetron_signal
           position_size := position_size
           stop_loss_pct := stop_loss_pct
           trailing_stop_pct := trailing_stop_pct
           deep_learning_used := deep_pred.isSome }

/-- The reachable OPEN state used to exhibit the missing `active` guard in
`PaperTrade.enter`: SHORT_PUT entered at 100 on strike 24000. -/
def c3_open_state : PaperTrade :=
  (PaperTrade.init.enter 1 100 24000 1 "unknown" none 0).2

/-- Projection to the exit-reason component of a `check_exit` result. -/
def reasonOf (r : ℤ × ℚ × String) : String := r.2.2

/-- The trailing-stop condition of `check_exit` as a single boolean (gate
and retracement test together). -/
def trailingCondition (s : PaperTrade) (row : OptionRow) (regime : String) : Bool :=
  let profit := s.entry_price - legPrice s row
  let maxp := max s.max_profit profit
  let trailing_pct :=
    match s.ml_trailing_stop_pct with
    | some v => if v ≠ 0 then v else regimeTrailingPct regime
    | none => regimeTrailingPct regime
  decide (8 < maxp ∧ 2 < profit ∧ profit < maxp * trailing_pct)

/-- Feeding a whole sequence of feature maps (with labels) into
`update_training_data`, left to right. -/
def feed_updates (s : EngineState)
    (inputs : List (List (String × ℚ) × TrainLabels)) : EngineState :=
  inputs.foldl (fun st p => update_training_data st p.1 p.2) s

/-- A fresh engine state: `feature_names` holds the constructor-initialised
schema, nothing trained, empty buffers. -/
def freshEngine : EngineState where
  feature_names := initial_feature_names
  trained_feature_names := []
  is_trained := false
  training_data := []
  max_training_samples := 2000
  min_training_samples := 50
  sequence_length := 10
  feature_buffer_len := 0
  models := ModelSetFlags.none
  deep_model_rebuilds := 0
  deep_train_success := false

/-- A training sample with all-identical regime label 0 (other
classification labels in class 0). -/
def c1_sample_a : TrainingSample :=
  ⟨[("underlying_price", 24000)], ⟨0, 0, 0, 0, 1/2, 1/10, 1/2⟩⟩

/-- A training sample with the same regime label 0 but the other three
classification labels in class 1, giving those targets two classes. -/
def c1_sample_b : TrainingSample :=
  ⟨[("underlying_price", 24000)], ⟨0, 1, 1, 1, 7/10, 1/10, 3/5⟩⟩

/-- The failing input for the diversity-gating claim: 50 samples (meeting
`min_training_samples = 50`) whose regime labels are all identical while
confidence, pattern and signal-direction are diverse. -/
def c1_state : EngineState :=
  { freshEngine with
    training_data := List.replicate 25 c1_sample_a ++ List.replicate 25 c1_sample_b }

/-- The engine state used in the C4 witness, trained. -/
def c4_trained : EngineState := { freshEngine with is_trained := true }

/-- Raw model outputs for the C4 witness: signal-direction class 1,
position-size regression 5 (to be clamped to 1), stop-loss regression 0
(to be clamped to 0.05), trailing-stop estimator raising (default 0.5),
no meta-learner, no deep prediction. -/
def c4_raw : ModelRaw :=
  ⟨some 1, some (1/2), some 0, some 1, some 5, some 0, none, none, none⟩

/-- The record `predict` produces on `c4_trained`/`c4_raw`. -/
def c4_out : Prediction := ⟨1, 7/10, 0, 1, 1, 1, 1/20, 1/2, false⟩

/-- The C9 scenario's ATM row: strike 24000, Call_OI 2000, Put_OI 3000,
Call_LTP 50, Put_LTP 40, neutral volume and OI-change fields. -/
def scnRow : OptionRow := ⟨24000, 2000, 3000, 0, 0, 50, 40, 0, 0⟩

/-- The features extracted from the C9 scenario snapshot (no history) at
clock time `hour:minute`. -/
def scnF (hour minute : ℕ) : List (String × ℚ) :=
  (extract_features initial_feature_names [scnRow] [] 24000 24000 hour minute).getD []


/-! ## Theorems settling the claims -/

/-- C5: `calculate_position_size` returns an integer number of lots that is
at least 1 for every combination of inputs, pathological ones included
(zero or negative account value, negative volatility, zero confidence or
strength); the internal error branch yields the fail-safe 1 lot, so the
result is never below 1. -/
theorem calculate_position_size_ge_one (trade_history : List ℚ)
    (account_value volatility confidence signal_strength : ℚ) :
    1 ≤ calculate_position_size trade_history account_value volatility
      confidence signal_strength := by
  unfold calculate_position_size
  split
  · exact le_refl 1
  · exact le_min (le_max_left 1 _) (le_max_left 1 _)

/-- C5 witness-free companion is unnecessary (no hypotheses), but a
closed instance documents the pathological cases concretely. -/
theorem calculate_position_size_ge_one_pathological :
    calculate_position_size [] 0 0 0 0 = 1 ∧
    calculate_position_size [] (-100000) (-1/2) 1 5 = 1 := by
  constructor <;>
    · simp only [calculate_position_size, get_historical_win_rate, get_average_win,
        get_average_loss, np_clip, pyRound, LOT_SIZE, max_risk_per_trade,
        List.filter, List.length, List.isEmpty]
      norm_num

/-- C3: the claim that `enter()` while a position is OPEN is a no-op
returning false FAILS on the code: `enter` has no guard on `self.active`,
so calling it on an open SHORT_PUT (entered at 100) with direction -1 and
price 50 returns `true` and overwrites the position state (side becomes
SHORT_CALL, entry price becomes 50). -/
theorem enter_while_active_overwrites :
    c3_open_state.active = true ∧
    (c3_open_state.enter (-1) 50 24000 1 "unknown" none 0).1 = true ∧
    (c3_open_state.enter (-1) 50 24000 1 "unknown" none 0).2.position =
      some "SHORT_CALL" ∧
    (c3_open_state.enter (-1) 50 24000 1 "unknown" none 0).2.entry_price = 50 ∧
    c3_open_state.entry_price = 100 := by
  refine ⟨?_, ?_, ?_, ?_, ?_⟩ <;>
    · simp only [c3_open_state, PaperTrade.init, PaperTrade.enter,
        PaperTrade.calculate_exit_levels,
        show strContains "unknown" "trending" = false from by decide,
        show strContains "unknown" "sideways" = false from by decide]
      norm_num

/-- C8: whenever `check_exit` returns a result, the per-contract PnL is
`entry_price - current leg price` (short-option economics) and the outcome
is 1 exactly when that PnL is strictly positive. -/
theorem check_exit_pnl_sign (s : PaperTrade) (data : List OptionRow)
    (signal : ℤ) (regime : String) (now : ℚ) (outcome : ℤ) (pnl : ℚ)
    (reason : String)
    (h : (s.check_exit data signal regime now).1 = some (outcome, pnl, reason)) :
    (outcome = 1 ↔ 0 < pnl) ∧
    ∃ row, data.find? (fun r => r.strike = s.entry_strike) = some row ∧
      pnl = s.entry_price - legPrice s row := by
  unfold PaperTrade.check_exit at h
  split at h
  · simp at h
  · split at h
    · simp at h
    · rename_i row hrow
      rcases her : exitReason s row signal regime now with _ | reason'
      · rw [her] at h
        simp at h
      · rw [her] at h
        simp only [Option.some.injEq, Prod.mk.injEq] at h
        obtain ⟨ho, hp, -⟩ := h
        subst hp
        refine ⟨?_, row, hrow, rfl⟩
        constructor
        · intro h1
          by_contra hneg
          rw [if_neg hneg] at ho
          omega
        · intro hpos
          rw [if_pos hpos] at ho
          exact ho.symm

/-- C8 witness: SHORT_PUT entered at 100, current put price 70 (signal 0
forces the Signal-Change exit): the returned record is
`(outcome 1, pnl 30, "Signal Change")`, and the theorem instantiates to
`1 = 1 ↔ 0 < 30`. -/
theorem check_exit_pnl_sign_witness :
    (c3_open_state.check_exit [⟨24000, 0, 0, 0, 0, 0, 70, 0, 0⟩] 0 "unknown" 0).1 =
      some (1, 30, "Signal Change") ∧
    ((1 : ℤ) = 1 ↔ (0 : ℚ) < 30) := by
  have h : (c3_open_state.check_exit [⟨24000, 0, 0, 0, 0, 0, 70, 0, 0⟩] 0
      "unknown" 0).1 = some (1, 30, "Signal Change") := by
    simp only [c3_open_state, PaperTrade.init, PaperTrade.enter,
      PaperTrade.calculate_exit_levels, PaperTrade.check_exit, exitReason,
      legPrice, timeExceeded, List.find?,
      show strContains "unknown" "trending" = false from by decide,
      show strContains "unknown" "sideways" = false from by decide]
    norm_num
  exact ⟨h, (check_exit_pnl_sign c3_open_state
    [⟨24000, 0, 0, 0, 0, 0, 70, 0, 0⟩] 0 "unknown" 0 1 30 "Signal Change" h).1⟩

/-- C2: on an active position whose entry strike is present in the
snapshot, the exit reason produced by `check_exit` is exactly the first
match of the five conditions in the fixed priority order stop-loss,
signal-change, profit-target, time-exit, trailing-stop; in particular a
price satisfying the stop-loss threshold always yields "Stop Loss"
regardless of the other conditions. -/
theorem check_exit_priority_order (s : PaperTrade) (data : List OptionRow)
    (signal : ℤ) (regime : String) (now : ℚ) (row : OptionRow)
    (h_active : s.active = true)
    (h_row : data.find? (fun r => r.strike = s.entry_strike) = some row) :
    ((s.check_exit data signal regime now).1).map reasonOf =
      exit_reason_priority
        (decide (s.stop_loss ≤ legPrice s row))
        (decide (signal = 0 ∨ signal ≠ s.direction))
        (decide (legPrice s row ≤ s.profit_target))
        (timeExceeded s.entry_time now)
        (trailingCondition s row regime) := by
  have hmain : exitReason s row signal regime now =
      exit_reason_priority
        (decide (s.stop_loss ≤ legPrice s row))
        (decide (signal = 0 ∨ signal ≠ s.direction))
        (decide (legPrice s row ≤ s.profit_target))
        (timeExceeded s.entry_time now)
        (trailingCondition s row regime) := by
    unfold exitReason exit_reason_priority trailingCondition
    simp only [decide_eq_true_eq]
    split_ifs <;> first | rfl | tauto
  rw [← hmain]
  unfold PaperTrade.check_exit
  rw [if_neg (by simp [h_active]), h_row]
  rcases hE : exitReason s row signal regime now with _ | reason
  · simp [hE]
  · simp [hE, reasonOf]

/-- C2 witness: the claim's concrete scenario.  `c3_open_state` is the
open SHORT_PUT with entry 100, stop 110, profit target 60 (the exact
numbers of the claim); the current put price is 115, satisfying the
stop-loss threshold: the exit reason is "Stop Loss". -/
theorem check_exit_priority_order_witness :
    c3_open_state.stop_loss = 110 ∧ c3_open_state.profit_target = 60 ∧
    ((c3_open_state.check_exit
        [⟨24000, 0, 0, 0, 0, 0, 115, 0, 0⟩] 1 "unknown" 0).1).map
      reasonOf = some "Stop Loss" := by
  have h := check_exit_priority_order c3_open_state
    [⟨24000, 0, 0, 0, 0, 0, 115, 0, 0⟩] 1 "unknown" 0
    ⟨24000, 0, 0, 0, 0, 0, 115, 0, 0⟩
    (by simp only [c3_open_state, PaperTrade.init, PaperTrade.enter,
        PaperTrade.calculate_exit_levels,
        show strContains "unknown" "trending" = false from by decide,
        show strContains "unknown" "sideways" = false from by decide]
        norm_num)
    (by simp only [List.find?, c3_open_state, PaperTrade.init, PaperTrade.enter,
        PaperTrade.calculate_exit_levels,
        show strContains "unknown" "trending" = false from by decide,
        show strContains "unknown" "sideways" = false from by decide]
        norm_num)
  refine ⟨?_, ?_, h.trans ?_⟩ <;>
    · simp only [c3_open_state, PaperTrade.init, PaperTrade.enter,
        PaperTrade.calculate_exit_levels, exit_reason_priority,
        trailingCondition, legPrice, timeExceeded,
        show strContains "unknown" "trending" = false from by decide,
        show strContains "unknown" "sideways" = false from by decide]
      norm_num

/-- C6: `detect_regime` never propagates an exception: any internal
failure yields the safe default record (regime "unknown", volatility 0.2,
trend 0, momentum 0); on the success path the returned volatility is
always within [0.05, 2.0]; and the volatility computation yields the
default 0.2 whenever the rolling price history holds fewer than 2 points. -/
theorem detect_regime_safe :
    (∀ (stdA : List ℚ → ℚ) (t m : ℚ) (hist : List ℚ) (u : Option ℚ),
      (detect_regime stdA t m hist u true).1 = regimeSafeDefault) ∧
    (∀ (stdA : List ℚ → ℚ) (hist : List ℚ) (w : ℕ), hist.length < 2 →
      calculate_realized_volatility_from_history stdA hist w = 1/5) ∧
    (∀ (stdA : List ℚ → ℚ) (t m : ℚ) (hist : List ℚ) (u : Option ℚ),
      1/20 ≤ (detect_regime stdA t m hist u false).1.volatility ∧
      (detect_regime stdA t m hist u false).1.volatility ≤ 2) := by
  have key : ∀ (stdA : List ℚ → ℚ) (h2 : List ℚ) (w : ℕ),
      1/20 ≤ calculate_realized_volatility_from_history stdA h2 w ∧
      calculate_realized_volatility_from_history stdA h2 w ≤ 2 := by
    intro stdA h2 w
    unfold calculate_realized_volatility_from_history
    dsimp only
    constructor <;> (split_ifs <;> norm_num)
  refine ⟨fun stdA t m hist u => rfl, fun stdA hist w h => ?_, fun stdA t m hist u => ?_⟩
  · unfold calculate_realized_volatility_from_history
    rw [if_pos h]
  · exact key stdA _ 20

/-- C6 witness: a single-point history is below the 2-point threshold and
produces the default volatility 0.2 (taking the std-dev oracle to be the
constant 5). -/
theorem detect_regime_safe_witness :
    ([(24000 : ℚ)].length < 2) ∧
    calculate_realized_volatility_from_history (fun _ => 5) [(24000 : ℚ)] 20 = 1/5 := by
  exact ⟨by norm_num, detect_regime_safe.2.1 (fun _ => 5) [(24000 : ℚ)] 20 (by norm_num)⟩

/-- One step of `update_feature_names` only ever appends. -/
theorem update_feature_names_keeps (names keys : List String) :
    names <+: (update_feature_names names keys).1 := by
  unfold update_feature_names
  split_ifs with h
  · rw [h]
    exact List.nil_prefix
  · show names <+: keys.foldl (fun acc n => if n ∈ acc then acc else acc ++ [n]) names
    have grow : ∀ (ks acc : List String),
        acc <+: ks.foldl (fun a n => if n ∈ a then a else a ++ [n]) acc := by
      intro ks
      induction ks with
      | nil => intro acc; exact List.prefix_refl _
      | cons k ks ih =>
        intro acc
        by_cases hk : k ∈ acc
        · simpa [hk] using ih acc
        · exact (List.prefix_append acc [k]).trans (by simpa [hk] using ih (acc ++ [k]))
    exact grow keys names

/-- One `update_training_data` call only ever appends to `feature_names`. -/
theorem update_training_data_keeps (s : EngineState)
    (features : List (String × ℚ)) (labels : TrainLabels) :
    s.feature_names <+: (update_training_data s features labels).feature_names := by
  unfold update_training_data
  exact update_feature_names_keeps _ _

/-- Every state reached by feeding inputs extends the starting schema. -/
theorem feed_updates_keeps (inputs : List (List (String × ℚ) × TrainLabels)) :
    ∀ s : EngineState, s.feature_names <+: (feed_updates s inputs).feature_names := by
  induction inputs with
  | nil => intro s; exact List.prefix_refl _
  | cons p rest ih =>
    intro s
    exact (update_training_data_keeps s p.1 p.2).trans (ih _)

/-- C7: feature-schema monotonicity.  For every sequence of feature maps
fed to `update_training_data`, the `feature_names` list at any later point
of the trace has the value at any earlier point as a prefix (names are
only appended, never removed or reordered), and in particular its length
is non-decreasing. -/
theorem feature_names_monotone (s : EngineState)
    (pre suf : List (List (String × ℚ) × TrainLabels)) :
    (feed_updates s pre).feature_names <+:
      (feed_updates s (pre ++ suf)).feature_names ∧
    (feed_updates s pre).feature_names.length ≤
      (feed_updates s (pre ++ suf)).feature_names.length := by
  have h : feed_updates s (pre ++ suf) = feed_updates (feed_updates s pre) suf := by
    unfold feed_updates
    exact List.foldl_append _ _ _ _
  rw [h]
  exact ⟨feed_updates_keeps suf _, (feed_updates_keeps suf _).length_le⟩

/-- C10: once `feature_names` is non-empty (true from construction
onward), EVERY call to `update_training_data` reconstructs the deep
sequence model and its optimizer — the rebuild counter increments on
every such call, not only on calls where the schema grew. -/
theorem update_training_data_rebuilds_deep_model (s : EngineState)
    (features : List (String × ℚ)) (labels : TrainLabels)
    (h : s.feature_names ≠ []) :
    (update_training_data s features labels).deep_model_rebuilds =
      s.deep_model_rebuilds + 1 := by
  simp [update_training_data, update_feature_names, h]

/-- C10 witness: a call whose feature map introduces NO new names (its one
key is already in the schema) leaves `feature_names` unchanged yet still
rebuilds the deep model. -/
theorem update_training_data_rebuilds_witness :
    (update_training_data freshEngine [("underlying_price", 24000)]
      ⟨0, 0, 0, 0, 1/2, 1/10, 1/2⟩).feature_names = initial_feature_names ∧
    (update_training_data freshEngine [("underlying_price", 24000)]
      ⟨0, 0, 0, 0, 1/2, 1/10, 1/2⟩).deep_model_rebuilds = 1 := by
  constructor
  · decide
  · exact (update_training_data_rebuilds_deep_model freshEngine
      [("underlying_price", 24000)] ⟨0, 0, 0, 0, 1/2, 1/10, 1/2⟩
      (by decide)).trans (by decide)

/-- C1: the claim FAILS on the code.  On a training set meeting the
minimum-sample precondition whose `regime` labels are all identical (one
distinct value) while the other three classification targets are diverse,
`train_models` hits the early `return False` of the diversity check and
aborts the WHOLE cycle: the three regression models (in particular
`position_sizer`) are NOT fit and `is_trained` stays false, where the
claim asserts only `regime_classifier` is skipped while `position_sizer`
still trains. -/
theorem train_models_diversity_aborts_cycle :
    c1_state.min_training_samples ≤ c1_state.training_data.length ∧
    countUnique (c1_state.training_data.map (fun smp => smp.labels.regime)) = 1 ∧
    2 ≤ countUnique (c1_state.training_data.map (fun smp => smp.labels.confidence)) ∧
    2 ≤ countUnique (c1_state.training_data.map (fun smp => smp.labels.pattern)) ∧
    2 ≤ countUnique (c1_state.training_data.map (fun smp => smp.labels.signal_direction)) ∧
    (train_models c1_state).1 = false ∧
    (train_models c1_state).2.models.position_sizer = false ∧
    (train_models c1_state).2.is_trained = false := by
  decide

/-- C4: `predict` returns null whenever `is_trained` is false or the
feature-name schema is empty; and every non-null result has
`position_size ∈ [0.1, 1]`, `stop_loss_pct ∈ [0.05, 0.2]`,
`trailing_stop_pct ∈ [0.3, 0.8]`; and — provided the signal-direction
classifier outputs one of its training classes {-1, 0, 1} — confidence is
at least 0.7 whenever the signal direction is non-zero and the external
(Tradetron) signal code equals the signal direction under the identity
mapping {1 → 1, -1 → -1, 0 → 0}. -/
theorem predict_contract :
    (∀ (s : EngineState) (raw : ModelRaw),
      s.is_trained = false ∨ s.feature_names = [] → predict s raw = none) ∧
    (∀ (s : EngineState) (raw : ModelRaw) (p : Prediction),
      predict s raw = some p →
      (1/10 ≤ p.position_size ∧ p.position_size ≤ 1) ∧
      (1/20 ≤ p.stop_loss_pct ∧ p.stop_loss_pct ≤ 1/5) ∧
      (3/10 ≤ p.trailing_stop_pct ∧ p.trailing_stop_pct ≤ 4/5) ∧
      (raw.signal_direction.getD 0 = -1 ∨ raw.signal_direction.getD 0 = 0 ∨
          raw.signal_direction.getD 0 = 1 →
        (p.signal_direction ≠ 0 → 7/10 ≤ p.confidence) ∧
        p.tradetron_signal = p.signal_direction)) := by
  constructor
  · intro s raw h
    unfold predict
    rcases h with h | h
    · rw [if_pos (Or.inl (by simp [h]))]
    · rw [if_pos (Or.inr h)]
  · intro s raw p h
    unfold predict at h
    split_ifs at h
    simp only [Option.some.injEq] at h
    subst h
    refine ⟨⟨le_max_left _ _, max_le (by norm_num) (min_le_left _ _)⟩,
      ⟨le_max_left _ _, max_le (by norm_num) (min_le_left _ _)⟩,
      ⟨le_max_left _ _, max_le (by norm_num) (min_le_left _ _)⟩, ?_⟩
    intro hsd
    constructor
    · intro hne
      have habs : |raw.signal_direction.getD 0| = 1 := by
        rcases hsd with h1 | h1 | h1 <;> simp [h1] at hne ⊢
      simp only [habs, if_pos rfl]
      exact le_max_right _ _
    · rcases hsd with h1 | h1 | h1 <;> simp [h1]

/-- C4 witness: the not-trained state yields null; the trained state
yields a record with clamped sizes, forced 0.7 confidence and identical
external signal code. -/
theorem predict_contract_witness :
    predict freshEngine c4_raw = none ∧
    predict c4_trained c4_raw = some c4_out ∧
    7/10 ≤ c4_out.confidence ∧ c4_out.tradetron_signal = c4_out.signal_direction := by
  have heval : predict c4_trained c4_raw = some c4_out := by
    simp only [predict, c4_trained, c4_raw, c4_out, freshEngine, initial_feature_names,
      averageRegime, Option.getD]
    norm_num
    exact fun h => absurd h (List.cons_ne_nil _ _)
  have h2 := (predict_contract.2 c4_trained c4_raw c4_out heval).2.2.2
    (Or.inr (Or.inr (by decide)))
  exact ⟨predict_contract.1 freshEngine c4_raw (Or.inl (by decide)), heval,
    h2.1 (by decide), h2.2⟩

set_option maxHeartbeats 1000000 in
/-- The thirteen signal-relevant feature values of the C9 scenario: the
OI values arrive scaled by 100000, `pcr_oi` is exactly 3/2, and only the
session flags depend on the clock. -/
theorem scn_lookups (hour minute : ℕ) :
    lookupD (scnF hour minute) "atm_call_volume" 0 = 0 ∧
    lookupD (scnF hour minute) "atm_put_volume" 0 = 0 ∧
    lookupD (scnF hour minute) "pcr_oi" 0 = 3/2 ∧
    lookupD (scnF hour minute) "atm_call_oi" 0 = 1/50 ∧
    lookupD (scnF hour minute) "atm_put_oi" 0 = 3/100 ∧
    lookupD (scnF hour minute) "call_put_ltp_ratio" 0 = 5/4 ∧
    lookupD (scnF hour minute) "call_oi_change" 0 = 0 ∧
    lookupD (scnF hour minute) "put_oi_change" 0 = 0 ∧
    lookupD (scnF hour minute) "call_volume_change" 0 = 0 ∧
    lookupD (scnF hour minute) "put_volume_change" 0 = 0 ∧
    lookupD (scnF hour minute) "is_opening" 0 = (if hour = 9 ∧ minute < 30 then 1 else 0) ∧
    lookupD (scnF hour minute) "is_closing" 0 = (if 15 ≤ hour then 1 else 0) ∧
    lookupD (scnF hour minute) "is_mid_session" 0 = (if 10 ≤ hour ∧ hour ≤ 14 then 1 else 0) := by
  refine ⟨?_, ?_, ?_, ?_, ?_, ?_, ?_, ?_, ?_, ?_, ?_, ?_, ?_⟩ <;>
    · simp +decide only [scnF, extract_features, validate_and_clean_features,
        feature_bounds, scaling_factors, initial_feature_names, changeFeatures,
        lookupD, scnRow, List.find?, List.map, List.filter,
        List.contains, List.elem, List.append, Option.getD]
      try norm_num

/-- On the C9 scenario the heuristic is the scalar computation over the
extracted features. -/
theorem scnTradEq (hour minute : ℕ) :
    traditional_analysis initial_feature_names [scnRow] [] 24000 24000 hour minute =
      signal_generation (scnF hour minute) := by
  unfold traditional_analysis scnF
  rcases hE : extract_features initial_feature_names [scnRow] [] 24000 24000 hour minute
    with _ | F
  · norm_num [signal_generation, signal_core, lookupD, List.find?]
  · rfl

/-- C9 counterexample: at the mid-session evaluation time 12:00, the
scenario snapshot (whose extracted `pcr_oi` is exactly 1.5) yields signal
-1 with strength exactly 2 — the mid-session bonus lifts the OI-dominance
point to the minimum strength — refuting the claim that the heuristic
returns signal 0 at every evaluation time. -/
theorem traditional_analysis_scenario_counterexample :
    lookupD (scnF 12 0) "pcr_oi" 0 = 3/2 ∧
    traditional_analysis initial_feature_names [scnRow] [] 24000 24000 12 0 = (-1, 2) ∧
    ((-1 : ℤ), (2 : ℤ)).1 ≠ 0 := by
  obtain ⟨h1, h2, h3, h4, h5, h6, h7, h8, h9, h10, h11, h12, h13⟩ := scn_lookups 12 0
  refine ⟨h3, ?_, by decide⟩
  rw [scnTradEq]
  unfold signal_generation
  rw [h1, h2, h3, h4, h5, h6, h7, h8, h9, h10, h11, h12, h13]
  norm_num [signal_core]

/-- C9 (amended): the scenario's extracted `pcr_oi` equals 1.5, and for
every evaluation time the heuristic returns signal 0 (strength below 2)
EXCEPT during mid-session hours (10–14), where the mid-session bonus
amplifies the put-OI-dominance point to exactly strength 2 and the result
is signal -1 with strength 2. -/
theorem traditional_analysis_scenario (hour minute : ℕ) :
    lookupD (scnF hour minute) "pcr_oi" 0 = 3/2 ∧
    traditional_analysis initial_feature_names [scnRow] [] 24000 24000 hour minute =
      (if 10 ≤ hour ∧ hour ≤ 14 then ((-1 : ℤ), (2 : ℤ)) else (0, 0)) := by
  obtain ⟨h1, h2, h3, h4, h5, h6, h7, h8, h9, h10, h11, h12, h13⟩ := scn_lookups hour minute
  refine ⟨h3, ?_⟩
  rw [scnTradEq]
  unfold signal_generation
  rw [h1, h2, h3, h4, h5, h6, h7, h8, h9, h10, h11, h12, h13]
  by_cases hop : hour = 9 ∧ minute < 30
  · have hcl : ¬ 15 ≤ hour := by omega
    have hmid : ¬ (10 ≤ hour ∧ hour ≤ 14) := by omega
    simp only [if_pos hop, if_neg hcl, if_neg hmid]
    norm_num [signal_core]
  · by_cases hmid : 10 ≤ hour ∧ hour ≤ 14
    · have hcl : ¬ 15 ≤ hour := by omega
      simp only [if_neg hop, if_pos hmid, if_neg hcl]
      norm_num [signal_core]
    · by_cases hcl : 15 ≤ hour
      · simp only [if_neg hop, if_pos hcl, if_neg hmid]
        norm_num [signal_core]
      · simp only [if_neg hop, if_neg hcl, if_neg hmid]
        norm_num [signal_core]

end TradingSystem
